import Mathlib

/-!
Verification development for the `agentic_radar` package: a shallow embedding
of its data model (`models.py`), detectors (`detectors.py`), report builder
(`reporting.py`), scenario runner (`testing.py`), orchestrator (`runner.py`),
OWASP taxonomy mapper (`detectors/vulnerabilities.py`) and evidence packager
(`evidence.py`), together with theorems settling the specification claims.

Modelling conventions:
- Python `str` is `String`; `Optional[str]` is `Option String`; `pathlib.Path`
  is carried as its string form.
- Python dicts are association lists ordered by insertion, with lookup on the
  first matching key; assignment replaces in place and appends new keys, as
  CPython dicts do.
- Free-form metadata values (`Dict[str, Any]`) are restricted to the value
  shapes the code actually stores: null, strings, integers, lists of strings
  and string-to-string maps (`MVal`).
- Python exceptions are modelled with `Except String`: a detector `run` that
  raises returns `.error`, and callers propagate it exactly as Python
  propagates the exception.
- CVSS score strings parsed by `float()` are carried as already-parsed
  `Option ℚ` values (CVSS scores have one decimal digit, so this is exact).
-/

namespace AgenticRadar

/-- Metadata values stored in the free-form `Dict[str, Any]` fields. -/
inductive MVal where
  | null
  | str (s : String)
  | num (n : Int)
  | strs (l : List String)
  | smap (m : List (String × String))
  deriving DecidableEq, Repr

/-- A Python dict with string keys, as an insertion-ordered association list. -/
abbrev Meta := List (String × MVal)

/-- `d[k]` lookup returning the first binding, `none` when the key is absent. -/
def dget {β : Type} (d : List (String × β)) (k : String) : Option β :=
  match d.find? (fun kv => kv.1 == k) with
  | some kv => some kv.2
  | none => none

/-- `d[k] = v`: replace the binding in place, or append a new one (CPython order). -/
def dset {β : Type} : List (String × β) → String → β → List (String × β)
  | [], k, v => [(k, v)]
  | (k', v') :: rest, k, v =>
      if k' = k then (k, v) :: rest else (k', v') :: dset rest k v

/-- `d.setdefault(k, v)`: insert at the end only when the key is absent. -/
def dsetdefault {β : Type} (d : List (String × β)) (k : String) (v : β) :
    List (String × β) :=
  match dget d k with
  | some _ => d
  | none => d ++ [(k, v)]

/-- Python truthiness of an optional string: `None` and `""` are falsy. -/
def truthy : Option String → Bool
  | none => false
  | some s => s ≠ ""

/-- Python `a or b` for an optional string `a` and a string default `b`. -/
def or_str (a : Option String) (b : String) : String :=
  match a with
  | some s => if s = "" then b else s
  | none => b

/-- Python `a or b` over two optional strings (truthiness on the left). -/
def or_opt (a b : Option String) : Option String :=
  match a with
  | some s => if s = "" then b else some s
  | none => b

/-- Lift an optional string into a metadata value (`None` becomes JSON null). -/
def MVal.ofOpt : Option String → MVal
  | none => .null
  | some s => .str s

/-! ### Python string primitives, on character lists so they compute -/

/-- Whether `needle` is a prefix of `hay`, on character lists. -/
def starts_chars : List Char → List Char → Bool
  | [], _ => true
  | _ :: _, [] => false
  | a :: as, b :: bs => a == b && starts_chars as bs

/-- Whether `needle` occurs contiguously in `hay` (Python `needle in hay`). -/
def has_sub (needle : List Char) : List Char → Bool
  | [] => needle.isEmpty
  | b :: bs => starts_chars needle (b :: bs) || has_sub needle bs

/-- Python substring test `needle in haystack` on strings. -/
def substr_in (needle haystack : String) : Bool :=
  has_sub needle.data haystack.data

/-- Python `str.startswith`. -/
def py_startswith (s pre : String) : Bool :=
  starts_chars pre.data s.data

/-- Python `str.lower` (ASCII case mapping suffices for the inputs here). -/
def py_lower (s : String) : String := ⟨s.data.map Char.toLower⟩

/-- Python `str.upper` (ASCII case mapping suffices for the inputs here). -/
def py_upper (s : String) : String := ⟨s.data.map Char.toUpper⟩

/-- ASCII whitespace, as stripped by Python `str.strip()`. -/
def is_space (c : Char) : Bool := c = ' ' || c = '\t' || c = '\n' || c = '\r'

/-- Python `str.strip()`: drop leading and trailing whitespace. -/
def py_strip (s : String) : String :=
  ⟨((s.data.dropWhile is_space).reverse.dropWhile is_space).reverse⟩

/-! ## models.py -/

/-- `Tool` dataclass from `models.py`. -/
structure Tool where
  name : String
  version : Option String := none
  source : Option String := none
  scope : Option String := none
  deriving DecidableEq, Repr

/-- `MCPServer` dataclass from `models.py`. -/
structure MCPServer where
  name : String
  endpoint : String
  capabilities : List String := []
  auth_mode : Option String := none
  deriving DecidableEq, Repr

/-- A vulnerability entry carried on a `Dependency`; absent keys are `none`. -/
structure VulnEntry where
  id : Option String := none
  cve : Option String := none
  severity : Option String := none
  description : Option String := none
  fix_version : Option String := none
  deriving DecidableEq, Repr

/-- `Dependency` dataclass from `models.py`. -/
structure Dependency where
  name : String
  version : Option String := none
  license : Option String := none
  vulnerabilities : List VulnEntry := []
  deriving DecidableEq, Repr

/-- `AgentComponent` dataclass from `models.py`. -/
structure AgentComponent where
  name : String
  description : Option String := none
  tools : List String := []
  deriving DecidableEq, Repr

/-- `ParsedProject` dataclass from `models.py` (`root` as its string form). -/
structure ParsedProject where
  root : String
  project_name : String
  agents : List AgentComponent := []
  tools : List Tool := []
  mcp_servers : List MCPServer := []
  dependencies : List Dependency := []
  metadata : Meta := []
  deriving DecidableEq, Repr

/-- `normalize_severity` from `models.py`: strip, lowercase, collapse to
`unknown` anything outside the five named levels (`value or "unknown"`
handles the empty string). -/
def normalize_severity (value : String) : String :=
  let normalized := py_lower (py_strip (if value = "" then "unknown" else value))
  if ["critical", "high", "medium", "low", "info"].contains normalized then
    normalized
  else "unknown"

/-- `RadarFinding` dataclass from `models.py`. -/
structure RadarFinding where
  identifier : String
  title : String
  severity : String
  description : String
  owasp_llm : List String := []
  owasp_agentic : List String := []
  subject : Option String := none
  remediation : Option String := none
  detector : Option String := none
  metadata : Meta := []
  deriving DecidableEq, Repr

/-- `ScenarioResult` dataclass from `models.py`. -/
structure ScenarioResult where
  name : String
  status : String
  details : Option String := none
  deriving DecidableEq, Repr

/-- The `summary` dict built by `ReportBuilder.build` (`inventory` part). -/
structure Inventory where
  agents : Nat
  tools : Nat
  mcp_servers : Nat
  dependencies : Nat
  deriving DecidableEq, Repr

/-- The `summary` dict built by `ReportBuilder.build`. -/
structure Summary where
  findings : List (String × Nat) := []
  inventory : Inventory := ⟨0, 0, 0, 0⟩
  mode : String := ""
  deriving DecidableEq, Repr

/-- `RadarReport` dataclass from `models.py`; `generated_at` is the timestamp
string the constructor received (`_now_utc_iso` is I/O and passed in). -/
structure RadarReport where
  project_name : String
  mode : String
  generated_at : String
  findings : List RadarFinding := []
  parsed_project : Option ParsedProject := none
  summary : Summary := {}
  trace_ids : List String := []
  scenario_results : List ScenarioResult := []
  metadata : Meta := []
  deriving DecidableEq, Repr

/-- One loop step of `RadarReport.severity_totals`: `setdefault` then `+= 1`. -/
def incr_severity (totals : List (String × Nat)) (severity : String) :
    List (String × Nat) :=
  let totals := dsetdefault totals severity 0
  dset totals severity ((dget totals severity).getD 0 + 1)

/-- `sum(v for k, v in totals.items() if k != "total")`. -/
def sum_non_total (totals : List (String × Nat)) : Nat :=
  ((totals.filter (fun kv => kv.1 != "total")).map (fun kv => kv.2)).sum

/-- `RadarReport.severity_totals` from `models.py`. -/
def severity_totals (findings : List RadarFinding) : List (String × Nat) :=
  let totals : List (String × Nat) :=
    [("critical", 0), ("high", 0), ("medium", 0), ("low", 0), ("info", 0),
     ("unknown", 0)]
  let totals := findings.foldl
    (fun acc finding => incr_severity acc (normalize_severity finding.severity))
    totals
  dset totals "total" (sum_non_total totals)

/-! ## models.py serialization (`to_dict` / `from_dict`)

Every `to_dict` emits a dict with a fixed key set; those dicts are modelled as
structures whose fields are the emitted keys.  `from_dict` reads the same keys
back (its `.get` defaults only fire on keys that `to_dict` always emits, so on
`to_dict` images they are dead). -/

/-- The dict emitted by `RadarFinding.to_dict`: same fields, key `id` instead
of `identifier`, severity passed through `normalize_severity`. -/
structure FindingDict where
  id : String
  title : String
  severity : String
  description : String
  owasp_llm : List String
  owasp_agentic : List String
  subject : Option String
  remediation : Option String
  detector : Option String
  metadata : Meta
  deriving DecidableEq, Repr

/-- `RadarFinding.to_dict` from `models.py`. -/
def RadarFinding.to_dict (f : RadarFinding) : FindingDict :=
  { id := f.identifier
    title := f.title
    severity := normalize_severity f.severity
    description := f.description
    owasp_llm := f.owasp_llm
    owasp_agentic := f.owasp_agentic
    subject := f.subject
    remediation := f.remediation
    detector := f.detector
    metadata := f.metadata }

/-- `ScenarioResult.to_dict` (an identity field copy). -/
def ScenarioResult.to_dict (r : ScenarioResult) : ScenarioResult :=
  { name := r.name, status := r.status, details := r.details }

/-- `Tool.to_dict` (an identity field copy). -/
def Tool.to_dict (t : Tool) : Tool :=
  { name := t.name, version := t.version, source := t.source, scope := t.scope }

/-- `MCPServer.to_dict` (an identity field copy). -/
def MCPServer.to_dict (s : MCPServer) : MCPServer :=
  { name := s.name, endpoint := s.endpoint, capabilities := s.capabilities,
    auth_mode := s.auth_mode }

/-- `Dependency.to_dict` (an identity field copy). -/
def Dependency.to_dict (d : Dependency) : Dependency :=
  { name := d.name, version := d.version, license := d.license,
    vulnerabilities := d.vulnerabilities }

/-- `AgentComponent.to_dict` (an identity field copy). -/
def AgentComponent.to_dict (a : AgentComponent) : AgentComponent :=
  { name := a.name, description := a.description, tools := a.tools }

/-- `ParsedProject.to_dict` (`root` serialized as `str(root)`). -/
def ParsedProject.to_dict (p : ParsedProject) : ParsedProject :=
  { root := p.root
    project_name := p.project_name
    agents := p.agents.map AgentComponent.to_dict
    tools := p.tools.map Tool.to_dict
    mcp_servers := p.mcp_servers.map MCPServer.to_dict
    dependencies := p.dependencies.map Dependency.to_dict
    metadata := p.metadata }

/-- The dict emitted by `RadarReport.to_dict`. -/
structure ReportDict where
  project_name : String
  mode : String
  generated_at : String
  summary : Summary
  findings : List FindingDict
  parsed_project : Option ParsedProject
  trace_ids : List String
  scenario_results : List ScenarioResult
  metadata : Meta
  deriving DecidableEq, Repr

/-- `RadarReport.to_dict` from `models.py`. -/
def RadarReport.to_dict (r : RadarReport) : ReportDict :=
  { project_name := r.project_name
    mode := r.mode
    generated_at := r.generated_at
    summary := r.summary
    findings := r.findings.map RadarFinding.to_dict
    parsed_project := r.parsed_project.map ParsedProject.to_dict
    trace_ids := r.trace_ids
    scenario_results := r.scenario_results.map ScenarioResult.to_dict
    metadata := r.metadata }

/-- The finding-reconstruction loop inside `RadarReport.from_dict`. -/
def finding_from_dict (item : FindingDict) : RadarFinding :=
  { identifier := item.id
    title := item.title
    severity := item.severity
    description := item.description
    owasp_llm := item.owasp_llm
    owasp_agentic := item.owasp_agentic
    subject := item.subject
    remediation := item.remediation
    detector := item.detector
    metadata := item.metadata }

/-- The scenario-reconstruction loop inside `RadarReport.from_dict`. -/
def scenario_from_dict (item : ScenarioResult) : ScenarioResult :=
  { name := item.name, status := item.status, details := item.details }

/-- The parsed-project reconstruction inside `RadarReport.from_dict`
(`root=Path(...)`, nested records rebuilt field by field). -/
def parsed_project_from_dict (p : ParsedProject) : ParsedProject :=
  { root := p.root
    project_name := p.project_name
    agents := p.agents.map fun item =>
      { name := item.name, description := item.description, tools := item.tools }
    tools := p.tools.map fun item =>
      { name := item.name, version := item.version, source := item.source,
        scope := item.scope }
    mcp_servers := p.mcp_servers.map fun item =>
      { name := item.name, endpoint := item.endpoint,
        capabilities := item.capabilities, auth_mode := item.auth_mode }
    dependencies := p.dependencies.map fun item =>
      { name := item.name, version := item.version, license := item.license,
        vulnerabilities := item.vulnerabilities }
    metadata := p.metadata }

/-- `RadarReport.from_dict` from `models.py` (`if parsed_payload:` is the
`Option` match: a serialized snapshot dict is never empty). -/
def RadarReport.from_dict (payload : ReportDict) : RadarReport :=
  { project_name := payload.project_name
    mode := payload.mode
    generated_at := payload.generated_at
    findings := payload.findings.map finding_from_dict
    parsed_project := payload.parsed_project.map parsed_project_from_dict
    summary := payload.summary
    trace_ids := payload.trace_ids
    scenario_results := payload.scenario_results.map scenario_from_dict
    metadata := payload.metadata }

/-! ## detectors.py -/

/-- A detector: a name and a `run` that may raise (modelled with `Except`). -/
structure Detector where
  name : String
  run : ParsedProject → Except String (List RadarFinding)

/-- The loop body of `ToolInventoryDetector.run` for one tool. -/
def tool_findings_for (tool : Tool) : List RadarFinding :=
  (if ¬ truthy tool.version then
    [{ identifier := "TOOL-NOVERSION::" ++ tool.name
       title := "Tool '" ++ tool.name ++ "' is missing a pinned version"
       severity := "medium"
       description := "Tools should be version pinned to ensure deterministic security reviews and facilitate patch management."
       owasp_llm := ["LLM02"]
       owasp_agentic := ["Agentic-Tooling"]
       subject := some tool.name
       remediation := some "Add an explicit version for the tool in the agent manifest."
       detector := some "tool-inventory"
       metadata := [("source", MVal.ofOpt tool.source)] }]
  else []) ++
  (if truthy tool.source ∧ py_startswith (tool.source.getD "") "http" then
    [{ identifier := "TOOL-EXTERNAL::" ++ tool.name
       title := "Tool '" ++ tool.name ++ "' is sourced from an external endpoint"
       severity := "low"
       description := "External tool sources should be evaluated for supply-chain exposure and guarded with allow-lists or sandboxes."
       owasp_llm := ["LLM06"]
       owasp_agentic := ["Agentic-External-Tool"]
       subject := some tool.name
       remediation := some "Review the external tool source and enforce provenance controls."
       detector := some "tool-inventory"
       metadata := [("source", MVal.ofOpt tool.source)] }]
  else [])

/-- `ToolInventoryDetector.run` from `detectors.py`. -/
def tool_inventory_findings (project : ParsedProject) : List RadarFinding :=
  project.tools.flatMap tool_findings_for

/-- The loop body of `MCPDetector.run` for one server. -/
def mcp_findings_for (server : MCPServer) : List RadarFinding :=
  (if server.capabilities = [] then
    [{ identifier := "MCP-NOCAP::" ++ server.name
       title := "MCP server '" ++ server.name ++ "' does not declare capabilities"
       severity := "medium"
       description := "Declare explicit MCP capabilities to apply least privilege controls and map permissions to security policies."
       owasp_llm := ["LLM08"]
       owasp_agentic := ["Agentic-MCP-LeastPrivilege"]
       subject := some server.name
       remediation := some "Document the MCP server capabilities and enforce policy checks."
       detector := some "mcp-server"
       metadata := [("endpoint", MVal.str server.endpoint)] }]
  else []) ++
  (if server.auth_mode = none ∨ server.auth_mode = some "anonymous" ∨
      server.auth_mode = some "none" then
    [{ identifier := "MCP-NOAUTH::" ++ server.name
       title := "MCP server '" ++ server.name ++ "' has no authentication configured"
       severity := "high"
       description := "Unprotected MCP servers expose powerful automation capabilities. Use mutual authentication and scoped tokens."
       owasp_llm := ["LLM04"]
       owasp_agentic := ["Agentic-MCP-Hardening"]
       subject := some server.name
       remediation := some "Require authentication and audit access for the MCP server."
       detector := some "mcp-server"
       metadata := [("endpoint", MVal.str server.endpoint),
                    ("auth_mode", MVal.ofOpt server.auth_mode)] }]
  else [])

/-- `MCPDetector.run` from `detectors.py`. -/
def mcp_detector_findings (project : ParsedProject) : List RadarFinding :=
  project.mcp_servers.flatMap mcp_findings_for

/-- `VulnerabilityDetector.severity_map` from `detectors.py`. -/
def severity_map : List (String × String) :=
  [("critical", "critical"), ("high", "high"), ("medium", "medium"),
   ("moderate", "medium"), ("low", "low")]

/-- The inner loop body of `VulnerabilityDetector.run` for one entry. -/
def vuln_finding_for (dep : Dependency) (vulnerability : VulnEntry) :
    RadarFinding :=
  let severity := py_lower (vulnerability.severity.getD "unknown")
  let normalized := (dget severity_map severity).getD "unknown"
  let identifier :=
    or_str vulnerability.id (or_str vulnerability.cve ("VULN::" ++ dep.name))
  { identifier := "DEP-VULN::" ++ dep.name ++ "::" ++ identifier
    title := "Dependency '" ++ dep.name ++ "' has a known vulnerability"
    severity := normalized
    description := (vulnerability.description).getD
      "Dependency vulnerability reported by upstream advisory feeds."
    owasp_llm := ["LLM06"]
    owasp_agentic := ["Agentic-SupplyChain"]
    subject := some dep.name
    remediation := vulnerability.fix_version
    detector := some "dependency-vulnerability"
    metadata := [("id", MVal.str identifier), ("severity", MVal.str severity),
                 ("fix_version", MVal.ofOpt vulnerability.fix_version)] }

/-- `VulnerabilityDetector.run` from `detectors.py`. -/
def vulnerability_detector_findings (project : ParsedProject) :
    List RadarFinding :=
  project.dependencies.flatMap fun dep =>
    dep.vulnerabilities.map (vuln_finding_for dep)

/-- The `ToolInventoryDetector` instance. -/
def toolInventoryDetector : Detector :=
  { name := "tool-inventory", run := fun p => .ok (tool_inventory_findings p) }

/-- The `MCPDetector` instance. -/
def mcpDetector : Detector :=
  { name := "mcp-server", run := fun p => .ok (mcp_detector_findings p) }

/-- The `VulnerabilityDetector` instance. -/
def vulnerabilityDetector : Detector :=
  { name := "dependency-vulnerability",
    run := fun p => .ok (vulnerability_detector_findings p) }

/-- `run_detectors` from `detectors.py`: concatenate each detector's findings
in order; an exception from any `run` propagates. -/
def run_detectors (project : ParsedProject) (detectors : List Detector) :
    Except String (List RadarFinding) :=
  detectors.foldlM
    (fun findings detector => do
      let fs ← detector.run project
      pure (findings ++ fs))
    []

/-! ## reporting.py -/

/-- `ReportBuilder.build` from `reporting.py`.  `now` stands for the
`generated_at` default `_now_utc_iso()` (I/O, passed in); the builder itself
passes no `generated_at`, so the report carries `now`. -/
def ReportBuilder.build (include_project_snapshot : Bool) (now : String)
    (project : ParsedProject) (findings : List RadarFinding) (mode : String)
    (trace_ids : List String) (scenario_results : List ScenarioResult)
    (metadata : Meta) : RadarReport :=
  let findings_list := findings
  let summary : Summary :=
    { findings := severity_totals findings_list
      inventory :=
        { agents := project.agents.length
          tools := project.tools.length
          mcp_servers := project.mcp_servers.length
          dependencies := project.dependencies.length }
      mode := mode }
  { project_name := project.project_name
    mode := mode
    generated_at := now
    findings := findings_list
    parsed_project := if include_project_snapshot then some project else none
    summary := summary
    trace_ids := trace_ids
    scenario_results := scenario_results
    metadata := metadata }

/-! ## testing.py -/

/-- `DEFAULT_SCENARIOS` from `testing.py`. -/
def DEFAULT_SCENARIOS : List String :=
  ["prompt-injection", "pii-leakage", "harmful-content", "tool-abuse"]

/-- Read a mapping-valued metadata key (`metadata.get(key, {})`); values of
other shapes would make the Python code raise and are outside the model. -/
def meta_smap (meta : Meta) (k : String) : List (String × String) :=
  match dget meta k with
  | some (.smap m) => m
  | _ => []

/-- The `SCENARIO-FAIL` finding built by `TestRunner.run`. -/
def scenario_fail_finding (scenario : String) : RadarFinding :=
  { identifier := "SCENARIO-FAIL::" ++ scenario
    title := "Scenario '" ++ scenario ++ "' failed security tests"
    severity := "high"
    description := "Scenario '" ++ scenario ++ "' produced an unsafe response during radar tests."
    owasp_llm := ["LLM01"]
    owasp_agentic := ["Agentic-Adversarial"]
    subject := some scenario
    remediation := some "Review guardrails and mitigations for this scenario."
    detector := some "scenario-runner" }

/-- The `SCENARIO-WARN` finding built by `TestRunner.run`. -/
def scenario_warn_finding (scenario : String) : RadarFinding :=
  { identifier := "SCENARIO-WARN::" ++ scenario
    title := "Scenario '" ++ scenario ++ "' produced warning signals"
    severity := "medium"
    description := "Scenario '" ++ scenario ++ "' triggered warning-level mitigations."
    owasp_llm := ["LLM03"]
    owasp_agentic := ["Agentic-Adversarial"]
    subject := some scenario
    remediation := some "Investigate mitigations and tighten guard thresholds."
    detector := some "scenario-runner" }

/-- The loop of `TestRunner.run` from `testing.py`, over the resolved scenario
names: appends findings and results in scenario order. -/
def test_runner_loop (expectations : List (String × String))
    (notes : List (String × String)) :
    List String → List RadarFinding × List ScenarioResult
  | [] => ([], [])
  | scenario :: rest =>
      let expectation := py_lower ((dget expectations scenario).getD "pass")
      let detail := dget notes scenario
      let rest_out := test_runner_loop expectations notes rest
      if expectation = "fail" ∨ expectation = "failed" then
        (scenario_fail_finding scenario :: rest_out.1,
         { name := scenario, status := "failed", details := detail } :: rest_out.2)
      else if expectation = "warn" ∨ expectation = "warning" then
        (scenario_warn_finding scenario :: rest_out.1,
         { name := scenario, status := "warning", details := detail } :: rest_out.2)
      else
        (rest_out.1,
         { name := scenario, status := "passed", details := detail } :: rest_out.2)

/-- `TestRunner.run` from `testing.py` (with `override_scenarios` resolved by
the caller, as `run_test` does). -/
def test_runner_run (project : ParsedProject) (scenario_names : List String) :
    List RadarFinding × List ScenarioResult :=
  let expectations := meta_smap project.metadata "test_expectations"
  let notes := meta_smap project.metadata "test_notes"
  test_runner_loop expectations notes scenario_names

/-! ## runner.py -/

/-- `ScanConfig` from `runner.py`, restricted to the fields that shape the
report (paths and the parser are I/O concerns). -/
structure ScanConfig where
  trace_ids : List String := []
  metadata : Meta := []
  detectors : Option (List Detector) := none
  include_project_snapshot : Bool := true

/-- `_default_detectors` from `runner.py`. -/
def default_detectors : List Detector :=
  [toolInventoryDetector, mcpDetector, vulnerabilityDetector]

/-- `_resolve_detectors` from `runner.py`. -/
def resolve_detectors : Option (List Detector) → List Detector
  | none => default_detectors
  | some ds => ds

/-- `run_scan` from `runner.py`, after the parse step and before the report is
written to disk (`_parse_project` and `_write_and_store` are I/O; the report
returned in `ScanResult` is fully determined here). -/
def run_scan_core (now : String) (project : ParsedProject)
    (config : ScanConfig) : Except String RadarReport := do
  let detectors := resolve_detectors config.detectors
  let findings ← run_detectors project detectors
  let metadata := dsetdefault config.metadata "mode" (.str "scan")
  let metadata := dsetdefault metadata "detectors"
    (.strs (detectors.map Detector.name))
  let metadata := dsetdefault metadata "trace_id_count"
    (.num config.trace_ids.length)
  pure (ReportBuilder.build config.include_project_snapshot now project
    findings "scan" config.trace_ids [] metadata)

/-- `TestConfig` from `runner.py`. -/
structure TestConfig extends ScanConfig where
  scenarios : List String := []

/-- `run_test` from `runner.py`, after the parse step and before the report is
written to disk. -/
def run_test_core (now : String) (project : ParsedProject)
    (config : TestConfig) : Except String RadarReport := do
  let detectors := resolve_detectors config.detectors
  let findings ← run_detectors project detectors
  let scenario_names :=
    if config.scenarios ≠ [] then config.scenarios else DEFAULT_SCENARIOS
  let scenario_findings := (test_runner_run project scenario_names).1
  let scenario_results := (test_runner_run project scenario_names).2
  let all_findings := findings ++ scenario_findings
  let metadata := dsetdefault config.metadata "mode" (.str "test")
  let metadata := dsetdefault metadata "detectors"
    (.strs (detectors.map Detector.name ++ ["scenario-runner"]))
  let metadata := dsetdefault metadata "trace_id_count"
    (.num config.trace_ids.length)
  let metadata := dset metadata "scenarios" (.strs scenario_names)
  let metadata := dset metadata "scenario_failures"
    (.strs ((scenario_results.filter
      (fun result => result.status == "failed")).map ScenarioResult.name))
  pure (ReportBuilder.build config.include_project_snapshot now project
    all_findings "test" config.trace_ids scenario_results metadata)

/-! ## detectors/vulnerabilities.py -/

/-- `LLM_CATEGORY_TITLES` from `detectors/vulnerabilities.py`. -/
def LLM_CATEGORY_TITLES : List (String × String) :=
  [("LLM01", "Prompt Injection"),
   ("LLM02", "Insecure Output Handling"),
   ("LLM03", "Training Data Poisoning"),
   ("LLM04", "Model Denial of Service"),
   ("LLM05", "Supply Chain Vulnerabilities"),
   ("LLM06", "Sensitive Information Disclosure"),
   ("LLM07", "Insecure Plugin Design"),
   ("LLM08", "Excessive Agency"),
   ("LLM09", "Overreliance"),
   ("LLM10", "Model Theft")]

/-- `AGENTIC_CATEGORY_TITLES` from `detectors/vulnerabilities.py`. -/
def AGENTIC_CATEGORY_TITLES : List (String × String) :=
  [("AA01", "Prompt & Input Integrity"),
   ("AA02", "Tool Misuse & Escalation"),
   ("AA03", "External Service Abuse"),
   ("AA04", "Sensitive Data Exposure"),
   ("AA05", "Model or Data Exfiltration"),
   ("AA06", "Supply Chain & Dependency Risk"),
   ("AA07", "Secrets & Credential Handling"),
   ("AA08", "Observability & Audit Gaps"),
   ("AA09", "Safety & Policy Violations"),
   ("AA10", "Resilience & Availability")]

/-- `SEVERITY_ORDER` from `detectors/vulnerabilities.py`. -/
def SEVERITY_ORDER : List (String × Nat) :=
  [("critical", 4), ("high", 3), ("medium", 2), ("moderate", 2), ("low", 1)]

/-- `VulnerabilityFinding` dataclass (its `Finding` base fields inlined). -/
structure VulnerabilityFinding where
  detector : String
  name : String
  location : Option String := none
  metadata : Meta := []
  package : String := ""
  version : String := ""
  ecosystem : Option String := none
  vulnerability_id : String := ""
  severity : Option String := none
  summary : Option String := none
  aliases : List String := []
  fix_versions : List String := []
  references : List String := []
  source : Option String := none
  owasp_llm_categories : List String := []
  owasp_agentic_categories : List String := []
  deriving DecidableEq, Repr

/-- `MappingRule` dataclass from `detectors/vulnerabilities.py`. -/
structure MappingRule where
  llm_codes : List String
  agentic_codes : List String
  keywords : List String := []
  package : Option String := none
  ecosystem : Option String := none
  id_prefixes : List String := []
  severity_at_least : Option String := none
  deriving DecidableEq, Repr

/-- `normalise_string` from `detectors/base.py`, lifted over `Optional[str]`. -/
def normalise_string : Option String → Option String
  | none => none
  | some s => some (py_lower (py_strip s))

/-- `MappingRule.matches` from `detectors/vulnerabilities.py`: every provided
(truthy) constraint must hold. -/
def rule_matches (rule : MappingRule) (finding : VulnerabilityFinding) : Bool :=
  (match rule.package with
   | none => true
   | some rp =>
       if rp = "" then true
       else normalise_string (some finding.package) == normalise_string (some rp)) &&
  (match rule.ecosystem with
   | none => true
   | some re =>
       if re = "" then true
       else normalise_string finding.ecosystem == normalise_string (some re)) &&
  (if rule.id_prefixes ≠ [] then
     let identifier := py_upper finding.vulnerability_id
     let aliases := finding.aliases.map py_upper
     rule.id_prefixes.any fun pre =>
       py_startswith identifier (py_upper pre) ||
       aliases.any fun a => py_startswith a (py_upper pre)
   else true) &&
  (if rule.keywords ≠ [] then
     let parts := [finding.summary, some (" ".intercalate finding.aliases)]
     let haystacks :=
       py_lower (" ".intercalate ((parts.filterMap id).filter (fun s => s ≠ "")))
     rule.keywords.any fun keyword => substr_in (py_lower keyword) haystacks
   else true) &&
  (match rule.severity_at_least with
   | none => true
   | some req =>
       if req = "" then true
       else
         let required := (dget SEVERITY_ORDER (py_lower req)).getD 0
         let actual :=
           (dget SEVERITY_ORDER (py_lower (finding.severity.getD ""))).getD 0
         decide (required ≤ actual))

/-- `DEFAULT_RULES` from `detectors/vulnerabilities.py`. -/
def DEFAULT_RULES : List MappingRule :=
  [{ llm_codes := ["LLM01"], agentic_codes := ["AA01"],
     keywords := ["prompt injection", "prompt-injection"] },
   { llm_codes := ["LLM07"], agentic_codes := ["AA02"],
     keywords := ["remote code execution", "command injection", "arbitrary command"] },
   { llm_codes := ["LLM06"], agentic_codes := ["AA04"],
     keywords := ["information disclosure", "sensitive data", "secret exposure"] },
   { llm_codes := ["LLM04"], agentic_codes := ["AA10"],
     keywords := ["denial of service", "dos", "resource exhaustion"] },
   { llm_codes := ["LLM07"], agentic_codes := ["AA03"],
     keywords := ["ssrf", "server-side request forgery", "unvalidated request"] },
   { llm_codes := ["LLM05"], agentic_codes := ["AA06"],
     keywords := ["supply chain", "dependency", "package takeover"] },
   { llm_codes := ["LLM07"], agentic_codes := ["AA07"],
     keywords := ["credential", "secret", "token leak"] }]

/-- `_format_category` from `detectors/vulnerabilities.py`. -/
def format_category (code : String) (titles : List (String × String)) : String :=
  code ++ " - " ++ (dget titles code).getD "Unknown"

/-- Python `sorted(set(xs))` on strings: unique elements in ascending order. -/
def sorted_strings (xs : List String) : List String :=
  xs.dedup.insertionSort (· ≤ ·)

/-- The LLM code set collected by `OWASPMapper.apply` at the default mapper
configuration (`rules=DEFAULT_RULES`, defaults `LLM05`), before sorting. -/
def applied_llm_pool (finding : VulnerabilityFinding) : List String :=
  let codes := (DEFAULT_RULES.filter
    (fun rule => rule_matches rule finding)).flatMap MappingRule.llm_codes
  if codes.isEmpty then ["LLM05"] else codes

/-- The Agentic code set collected by `OWASPMapper.apply` at the default
mapper configuration (defaults `AA06`), before sorting. -/
def applied_agentic_pool (finding : VulnerabilityFinding) : List String :=
  let codes := (DEFAULT_RULES.filter
    (fun rule => rule_matches rule finding)).flatMap MappingRule.agentic_codes
  if codes.isEmpty then ["AA06"] else codes

/-- The sorted unique LLM codes `OWASPMapper.apply` stores (before titling). -/
def applied_llm_codes (finding : VulnerabilityFinding) : List String :=
  sorted_strings (applied_llm_pool finding)

/-- The sorted unique Agentic codes `OWASPMapper.apply` stores. -/
def applied_agentic_codes (finding : VulnerabilityFinding) : List String :=
  sorted_strings (applied_agentic_pool finding)

/-- `OWASPMapper.apply` at the default configuration: collect the codes of
matching rules, fall back to the defaults per taxonomy, sort, and store each
code formatted with its human title. -/
def owasp_apply (finding : VulnerabilityFinding) : VulnerabilityFinding :=
  { finding with
    owasp_llm_categories := (applied_llm_codes finding).map
      (fun code => format_category code LLM_CATEGORY_TITLES)
    owasp_agentic_categories := (applied_agentic_codes finding).map
      (fun code => format_category code AGENTIC_CATEGORY_TITLES) }

/-! ### OSV payload model and `VulnerabilityMapper.from_osv` -/

/-- The `source` dict of an OSV result (`_extract_source_path` keys). -/
structure OsvSource where
  path : Option String := none
  file : Option String := none
  name : Option String := none
  deriving DecidableEq, Repr

/-- The `package` dict inside an OSV package entry. -/
structure OsvPackageMeta where
  name : Option String := none
  ecosystem : Option String := none
  deriving DecidableEq, Repr

/-- One `events` entry of an OSV affected range. -/
structure OsvEvent where
  fixed : Option String := none
  deriving DecidableEq, Repr

/-- One `ranges` entry of an OSV affected record. -/
structure OsvRange where
  events : List OsvEvent := []
  deriving DecidableEq, Repr

/-- One `affected` entry of an OSV vulnerability. -/
structure OsvAffected where
  ranges : List OsvRange := []
  deriving DecidableEq, Repr

/-- The `database_specific` dict of an OSV vulnerability. -/
structure OsvDbSpecific where
  severity : Option String := none
  fix_versions : List String := []
  fixed_versions : List String := []
  deriving DecidableEq, Repr

/-- An OSV vulnerability record.  `scores` carries, per `severity[]` entry,
the numeric value `_score_to_float` yields (`none` for non-numeric scores);
`references` carries the `url` values of the reference dicts that have one. -/
structure OsvVuln where
  id : Option String := none
  summary : Option String := none
  details : Option String := none
  aliases : List String := []
  scores : List (Option ℚ) := []
  database_specific : Option OsvDbSpecific := none
  fix_versions : List String := []
  fixed_versions : List String := []
  affected : List OsvAffected := []
  references : List String := []
  deriving DecidableEq, Repr

/-- One `packages` entry of an OSV result. -/
structure OsvPackage where
  package : Option OsvPackageMeta := none
  versions : List String := []
  vulnerabilities : List OsvVuln := []
  deriving DecidableEq, Repr

/-- One `results` entry of an OSV payload. -/
structure OsvResult where
  source : Option OsvSource := none
  packages : List OsvPackage := []
  deriving DecidableEq, Repr

/-- An OSV payload as consumed by `VulnerabilityMapper.from_osv`. -/
structure OsvPayload where
  results : List OsvResult := []
  deriving DecidableEq, Repr

/-- `_extract_source_path`: first of `path`, `file`, `name` that is a string. -/
def extract_source_path : Option OsvSource → Option String
  | none => none
  | some src =>
      match src.path with
      | some v => some v
      | none =>
          match src.file with
          | some v => some v
          | none => src.name

/-- `_severity_from_score` from `detectors/vulnerabilities.py`. -/
def severity_from_score (score : ℚ) : String :=
  if 9 ≤ score then "CRITICAL"
  else if 7 ≤ score then "HIGH"
  else if 4 ≤ score then "MEDIUM"
  else if 0 < score then "LOW"
  else "UNKNOWN"

/-- `_extract_osv_severity`: the maximum numeric CVSS score wins; otherwise
fall back to `database_specific.severity` upper-cased; otherwise `None`. -/
def extract_osv_severity (vuln : OsvVuln) : Option String :=
  match vuln.scores.filterMap id with
  | s :: rest => some (severity_from_score (rest.foldl max s))
  | [] =>
      match vuln.database_specific with
      | some db => db.severity.map py_upper
      | none => none

/-- `_extract_osv_fix_versions`: union of the four fix-version sources plus
every `affected[].ranges[].events[].fixed`, returned sorted. -/
def extract_osv_fix_versions (vuln : OsvVuln) : List String :=
  let db := vuln.database_specific.getD {}
  sorted_strings
    (vuln.fix_versions ++ vuln.fixed_versions ++
     db.fix_versions ++ db.fixed_versions ++
     vuln.affected.flatMap fun affected =>
       affected.ranges.flatMap fun range =>
         range.events.filterMap OsvEvent.fixed)

/-- The `vuln_id` expression of `from_osv`:
`vuln.get("id") or aliases[0] if aliases else package_name`, which Python
parses as `(vuln.get("id") or aliases[0]) if aliases else package_name`. -/
def osv_vuln_id (package_name : String) (vuln : OsvVuln) : String :=
  match vuln.aliases with
  | [] => package_name
  | a :: _ => or_str vuln.id a

/-- `VulnerabilityMapper.from_osv` at the default mapper configuration. -/
def from_osv (payload : OsvPayload) : List VulnerabilityFinding :=
  payload.results.flatMap fun result =>
    let source_path := extract_source_path result.source
    result.packages.flatMap fun package =>
      let pkg_meta := package.package.getD {}
      let package_name := or_str pkg_meta.name "unknown"
      let ecosystem := pkg_meta.ecosystem
      let versions :=
        if package.versions = [] then ["unknown"] else package.versions
      package.vulnerabilities.flatMap fun vuln =>
        let severity := extract_osv_severity vuln
        let summary := or_opt vuln.summary vuln.details
        let aliases := vuln.aliases
        let references := vuln.references
        let fix_versions := extract_osv_fix_versions vuln
        let vuln_id := osv_vuln_id package_name vuln
        versions.map fun version =>
          owasp_apply
            { detector := "vulnerability"
              name := vuln_id
              location := source_path
              metadata := [("source", MVal.str "osv"),
                           ("path", MVal.ofOpt source_path)]
              package := package_name
              version := version
              ecosystem := ecosystem
              vulnerability_id := vuln_id
              severity := severity
              summary := summary
              aliases := aliases
              fix_versions := fix_versions
              references := references
              source := some "osv" }

/-! ## evidence.py

`EvidencePackBuilder.build` is modelled as a state transformer over the file
at the output path.  Opening `zipfile.ZipFile(output_path, "w")` creates or
truncates that file; entries are appended one by one; when an exception
escapes the `with` block the entries already written remain on disk.  The
model returns the outcome together with the final content at the output path
(`none` = no file, `some entries` = a zip holding exactly those entries). -/

/-- The filesystem facts `build` consults: which paths are regular files and
which are directories (with the relative paths of the files inside). -/
structure EvidenceFS where
  files : List String
  dirs : List (String × List String)
  deriving DecidableEq, Repr

/-- `Path.is_file`. -/
def EvidenceFS.is_file (fs : EvidenceFS) (p : String) : Bool :=
  fs.files.contains p

/-- `Path.is_dir`. -/
def EvidenceFS.is_dir (fs : EvidenceFS) (p : String) : Bool :=
  (dget fs.dirs p).isSome

/-- `Path.exists` (true for files and directories). -/
def EvidenceFS.path_exists (fs : EvidenceFS) (p : String) : Bool :=
  fs.is_file p || fs.is_dir p

/-- The errors `EvidencePackBuilder.build` raises. -/
inductive PackError where
  | noFindings
  | findingsMissing (p : String)
  | logsMissing (p : String)
  deriving DecidableEq, Repr

/-- `Path(p).name`: the last path component. -/
def basename (p : String) : String :=
  ⟨(p.data.reverse.takeWhile (fun c => c != '/')).reverse⟩

/-- First findings path that fails the `path.exists()` check, in list order. -/
def first_missing (fs : EvidenceFS) : List String → Option String
  | [] => none
  | p :: rest =>
      if fs.path_exists p then first_missing fs rest else some p

/-- The archive names of the findings entries (`findings/<basename>`). -/
def findings_arcnames (findings_list : List String) : List String :=
  findings_list.map fun p => "findings/" ++ basename p

/-- The archive names of the log entries for a directory logs path:
`logs/<relative-path>` over the sorted directory walk. -/
def logs_arcnames_of_dir (rel_files : List String) : List String :=
  (sorted_strings rel_files).map fun rel => "logs/" ++ rel

/-- `EvidencePackBuilder.build` from `evidence.py`, as a state transformer on
the content at the output path.  `before` is that content prior to the call;
the returned pair is (outcome, content after the call). -/
def evidence_build (fs : EvidenceFS) (findings_paths : List String)
    (logs_path : Option String) (before : Option (List String)) :
    Except PackError (List String) × Option (List String) :=
  if findings_paths = [] then (.error .noFindings, before)
  else
    match first_missing fs findings_paths with
    | some p => (.error (.findingsMissing p), before)
    | none =>
        let fArcs := findings_arcnames findings_paths
        match logs_path with
        | none => (.ok (fArcs ++ ["metadata.json"]),
                   some (fArcs ++ ["metadata.json"]))
        | some lp =>
            match dget fs.dirs lp with
            | some rel_files =>
                let entries := fArcs ++ logs_arcnames_of_dir rel_files ++
                  ["metadata.json"]
                (.ok entries, some entries)
            | none =>
                if fs.is_file lp then
                  let entries := fArcs ++ ["logs/" ++ basename lp] ++
                    ["metadata.json"]
                  (.ok entries, some entries)
                else
                  (.error (.logsMissing lp), some fArcs)

/-! ## Statement-side definitions and concrete inputs -/

/-- The report with every finding severity re-normalized: the equivalence
modulo which serialization round-trips (claim C5's "modulo re-normalized
severity strings"). -/
def normalize_report (r : RadarReport) : RadarReport :=
  { r with findings := r.findings.map fun f =>
      { f with severity := normalize_severity f.severity } }

/-- The finding identifiers of a scan outcome (empty on an aborted run). -/
def scan_finding_ids : Except String RadarReport → List String
  | .ok r => r.findings.map RadarFinding.identifier
  | .error _ => []

/-- The ten strings matched by the claim's regex `^LLM(0[1-9]|10)$`. -/
def is_llm_code (s : String) : Bool :=
  ["LLM01", "LLM02", "LLM03", "LLM04", "LLM05", "LLM06", "LLM07", "LLM08",
   "LLM09", "LLM10"].contains s

/-- The ten strings matched by the claim's regex `^AA(0[1-9]|10)$`. -/
def is_aa_code (s : String) : Bool :=
  ["AA01", "AA02", "AA03", "AA04", "AA05", "AA06", "AA07", "AA08",
   "AA09", "AA10"].contains s

/-- Modelled from the claim's words (C7): the scenario status for a lowered
expectation string — `fail`/`failed` give `failed`, `warn`/`warning` give
`warning`, anything else gives `passed`. -/
def spec_status (expectation : String) : String :=
  if expectation = "fail" ∨ expectation = "failed" then "failed"
  else if expectation = "warn" ∨ expectation = "warning" then "warning"
  else "passed"

/-- Modelled from the claim's words (C7): the synthetic finding for a lowered
expectation string, `none` when the scenario passes. -/
def spec_finding (scenario expectation : String) : Option RadarFinding :=
  if expectation = "fail" ∨ expectation = "failed" then
    some (scenario_fail_finding scenario)
  else if expectation = "warn" ∨ expectation = "warning" then
    some (scenario_warn_finding scenario)
  else none

/-- A project with one unversioned tool, used by concrete scan runs. -/
def sampleProject : ParsedProject :=
  { root := ".", project_name := "sample", tools := [{ name := "search" }] }

/-- A scan configuration listing the tool-inventory detector twice. -/
def dupDetectorConfig : ScanConfig :=
  { detectors := some [toolInventoryDetector, toolInventoryDetector] }

/-- A detector whose `run` raises. -/
def brokenDetector : Detector :=
  { name := "boom", run := fun _ => .error "boom" }

/-- A scan configuration containing a raising detector. -/
def brokenConfig : ScanConfig :=
  { detectors := some [toolInventoryDetector, brokenDetector, mcpDetector] }

/-- A vulnerability finding matched by no default rule. -/
def plainVuln : VulnerabilityFinding :=
  { detector := "vulnerability", name := "x" }

/-- A filesystem with one findings file and no logs path. -/
def evFS : EvidenceFS := { files := ["report.json"], dirs := [] }

/-- The vulnerability record of `osvRcePayload` (empty aliases, non-empty id). -/
def osvRceVuln : OsvVuln :=
  { id := some "CVE-2024-0001",
    summary := some "Remote code execution in libfoo" }

/-- OSV payload: one record whose summary names a remote code execution. -/
def osvRcePayload : OsvPayload :=
  { results :=
      [{ source := none,
         packages :=
           [{ package := some { name := some "libfoo", ecosystem := none },
              versions := ["1.0"],
              vulnerabilities := [osvRceVuln] }] }] }

/-- A finding with a non-canonical severity spelling. -/
def moderateFinding : RadarFinding :=
  { identifier := "DEP-VULN::requests::CVE-1", title := "t",
    severity := "moderate", description := "d" }

/-! ## Helper lemmas -/

theorem dget_dset_self {β : Type} :
    ∀ (m : List (String × β)) (k : String) (v : β), dget (dset m k v) k = some v
  | [], k, v => by simp [dset, dget, List.find?]
  | (k', v') :: rest, k, v => by
      by_cases h : k' = k
      · simp [dset, h, dget, List.find?]
      · have ih := dget_dset_self rest k v
        simp [dset, h, dget, List.find?] at ih ⊢
        simpa [h] using ih

theorem normalize_severity_mem (s : String) :
    normalize_severity s ∈
      ["critical", "high", "medium", "low", "info", "unknown"] := by
  unfold normalize_severity
  by_cases h : (["critical", "high", "medium", "low", "info"].contains
      (py_lower (py_strip (if s = "" then "unknown" else s))))
  · rw [if_pos h]
    have hm : py_lower (py_strip (if s = "" then "unknown" else s)) ∈
        ["critical", "high", "medium", "low", "info"] := by simpa using h
    simp at hm ⊢
    tauto
  · rw [if_neg h]
    simp

theorem incr_severity_critical (a b c d e f : Nat) :
    incr_severity [("critical", a), ("high", b), ("medium", c), ("low", d),
      ("info", e), ("unknown", f)] "critical"
    = [("critical", a + 1), ("high", b), ("medium", c), ("low", d),
      ("info", e), ("unknown", f)] := rfl

theorem incr_severity_high (a b c d e f : Nat) :
    incr_severity [("critical", a), ("high", b), ("medium", c), ("low", d),
      ("info", e), ("unknown", f)] "high"
    = [("critical", a), ("high", b + 1), ("medium", c), ("low", d),
      ("info", e), ("unknown", f)] := rfl

theorem incr_severity_medium (a b c d e f : Nat) :
    incr_severity [("critical", a), ("high", b), ("medium", c), ("low", d),
      ("info", e), ("unknown", f)] "medium"
    = [("critical", a), ("high", b), ("medium", c + 1), ("low", d),
      ("info", e), ("unknown", f)] := rfl

theorem incr_severity_low (a b c d e f : Nat) :
    incr_severity [("critical", a), ("high", b), ("medium", c), ("low", d),
      ("info", e), ("unknown", f)] "low"
    = [("critical", a), ("high", b), ("medium", c), ("low", d + 1),
      ("info", e), ("unknown", f)] := rfl

theorem incr_severity_info (a b c d e f : Nat) :
    incr_severity [("critical", a), ("high", b), ("medium", c), ("low", d),
      ("info", e), ("unknown", f)] "info"
    = [("critical", a), ("high", b), ("medium", c), ("low", d),
      ("info", e + 1), ("unknown", f)] := rfl

theorem incr_severity_unknown (a b c d e f : Nat) :
    incr_severity [("critical", a), ("high", b), ("medium", c), ("low", d),
      ("info", e), ("unknown", f)] "unknown"
    = [("critical", a), ("high", b), ("medium", c), ("low", d),
      ("info", e), ("unknown", f + 1)] := rfl

theorem totals_fold (fs : List RadarFinding) :
    ∀ (a b c d e f : Nat),
    fs.foldl
      (fun acc finding => incr_severity acc (normalize_severity finding.severity))
      [("critical", a), ("high", b), ("medium", c), ("low", d), ("info", e),
       ("unknown", f)]
    = [("critical", a + fs.countP (fun x => normalize_severity x.severity == "critical")),
       ("high", b + fs.countP (fun x => normalize_severity x.severity == "high")),
       ("medium", c + fs.countP (fun x => normalize_severity x.severity == "medium")),
       ("low", d + fs.countP (fun x => normalize_severity x.severity == "low")),
       ("info", e + fs.countP (fun x => normalize_severity x.severity == "info")),
       ("unknown", f + fs.countP (fun x => normalize_severity x.severity == "unknown"))] := by
  induction fs with
  | nil => intro a b c d e f; simp
  | cons x xs ih =>
      intro a b c d e f
      have hx := normalize_severity_mem x.severity
      simp only [List.mem_cons, List.not_mem_nil, or_false] at hx
      rw [List.foldl_cons]
      rcases hx with h | h | h | h | h | h <;>
        rw [h] <;>
        simp only [incr_severity_critical, incr_severity_high,
          incr_severity_medium, incr_severity_low, incr_severity_info,
          incr_severity_unknown] <;>
        rw [ih] <;>
        simp [List.countP_cons, h] <;>
        omega

theorem severity_totals_spec (fs : List RadarFinding) :
    severity_totals fs =
    [("critical", fs.countP (fun x => normalize_severity x.severity == "critical")),
     ("high", fs.countP (fun x => normalize_severity x.severity == "high")),
     ("medium", fs.countP (fun x => normalize_severity x.severity == "medium")),
     ("low", fs.countP (fun x => normalize_severity x.severity == "low")),
     ("info", fs.countP (fun x => normalize_severity x.severity == "info")),
     ("unknown", fs.countP (fun x => normalize_severity x.severity == "unknown"))]
    ++ [("total", sum_non_total
      [("critical", fs.countP (fun x => normalize_severity x.severity == "critical")),
       ("high", fs.countP (fun x => normalize_severity x.severity == "high")),
       ("medium", fs.countP (fun x => normalize_severity x.severity == "medium")),
       ("low", fs.countP (fun x => normalize_severity x.severity == "low")),
       ("info", fs.countP (fun x => normalize_severity x.severity == "info")),
       ("unknown", fs.countP (fun x => normalize_severity x.severity == "unknown"))])] := by
  simp only [severity_totals]
  rw [totals_fold]
  simp only [Nat.zero_add]
  rfl

theorem sum_non_total_six (a b c d e f : Nat) :
    sum_non_total [("critical", a), ("high", b), ("medium", c), ("low", d),
      ("info", e), ("unknown", f)] = a + b + c + d + e + f := by
  simp [sum_non_total]
  omega

theorem countP_severity_partition (fs : List RadarFinding) :
    fs.countP (fun x => normalize_severity x.severity == "critical") +
    fs.countP (fun x => normalize_severity x.severity == "high") +
    fs.countP (fun x => normalize_severity x.severity == "medium") +
    fs.countP (fun x => normalize_severity x.severity == "low") +
    fs.countP (fun x => normalize_severity x.severity == "info") +
    fs.countP (fun x => normalize_severity x.severity == "unknown") = fs.length := by
  induction fs with
  | nil => simp
  | cons x xs ih =>
      have hx := normalize_severity_mem x.severity
      simp only [List.mem_cons, List.not_mem_nil, or_false] at hx
      rcases hx with h | h | h | h | h | h <;>
        simp [List.countP_cons, h] <;>
        omega

/-- C1: every report built by `ReportBuilder.build` (and hence by `run_scan`
and `run_test`, which call it) carries a `summary.findings` histogram mapping
each canonical severity to the number of findings with that normalized
severity, with a `total` entry equal to both the number of findings in the
report and the sum of the non-`total` entries. -/
theorem c1_summary_findings_histogram :
    ∀ (snap : Bool) (now : String) (project : ParsedProject)
      (findings : List RadarFinding) (mode : String) (trace_ids : List String)
      (scenario_results : List ScenarioResult) (metadata : Meta),
      (∀ sev ∈ ["critical", "high", "medium", "low", "info", "unknown"],
        dget (ReportBuilder.build snap now project findings mode trace_ids
            scenario_results metadata).summary.findings sev =
          some (findings.countP fun x => normalize_severity x.severity == sev)) ∧
      dget (ReportBuilder.build snap now project findings mode trace_ids
          scenario_results metadata).summary.findings "total" =
        some (ReportBuilder.build snap now project findings mode trace_ids
          scenario_results metadata).findings.length ∧
      sum_non_total (ReportBuilder.build snap now project findings mode
          trace_ids scenario_results metadata).summary.findings =
        (ReportBuilder.build snap now project findings mode trace_ids
          scenario_results metadata).findings.length ∧
      (∀ (project2 : ParsedProject) (config : ScanConfig) (r : RadarReport),
        run_scan_core now project2 config = .ok r →
        dget r.summary.findings "total" = some r.findings.length) ∧
      (∀ (project2 : ParsedProject) (config : TestConfig) (r : RadarReport),
        run_test_core now project2 config = .ok r →
        dget r.summary.findings "total" = some r.findings.length) := by
  have key : ∀ (fs : List RadarFinding),
      dget (severity_totals fs) "total" = some fs.length := by
    intro fs
    rw [severity_totals_spec]
    have h1 : dget
        ([("critical", fs.countP (fun x => normalize_severity x.severity == "critical")),
          ("high", fs.countP (fun x => normalize_severity x.severity == "high")),
          ("medium", fs.countP (fun x => normalize_severity x.severity == "medium")),
          ("low", fs.countP (fun x => normalize_severity x.severity == "low")),
          ("info", fs.countP (fun x => normalize_severity x.severity == "info")),
          ("unknown", fs.countP (fun x => normalize_severity x.severity == "unknown"))]
         ++ [("total", sum_non_total
          [("critical", fs.countP (fun x => normalize_severity x.severity == "critical")),
           ("high", fs.countP (fun x => normalize_severity x.severity == "high")),
           ("medium", fs.countP (fun x => normalize_severity x.severity == "medium")),
           ("low", fs.countP (fun x => normalize_severity x.severity == "low")),
           ("info", fs.countP (fun x => normalize_severity x.severity == "info")),
           ("unknown", fs.countP (fun x => normalize_severity x.severity == "unknown"))])])
        "total"
        = some (sum_non_total
          [("critical", fs.countP (fun x => normalize_severity x.severity == "critical")),
           ("high", fs.countP (fun x => normalize_severity x.severity == "high")),
           ("medium", fs.countP (fun x => normalize_severity x.severity == "medium")),
           ("low", fs.countP (fun x => normalize_severity x.severity == "low")),
           ("info", fs.countP (fun x => normalize_severity x.severity == "info")),
           ("unknown", fs.countP (fun x => normalize_severity x.severity == "unknown"))]) := rfl
    rw [h1, sum_non_total_six]
    exact congrArg some (countP_severity_partition fs)
  intro snap now project findings mode trace_ids scenario_results metadata
  refine ⟨?_, ?_, ?_, ?_, ?_⟩
  · intro sev hsev
    have hb : (ReportBuilder.build snap now project findings mode trace_ids
        scenario_results metadata).summary.findings = severity_totals findings := rfl
    rw [hb, severity_totals_spec]
    fin_cases hsev <;> rfl
  · exact key findings
  · show sum_non_total (severity_totals findings) = findings.length
    rw [severity_totals_spec]
    have h2 := countP_severity_partition findings
    simp [sum_non_total]
    omega
  · intro project2 config r hr
    simp only [run_scan_core] at hr
    cases hd : run_detectors project2 (resolve_detectors config.detectors) with
    | error e =>
        rw [hd] at hr
        simp [Bind.bind, Except.bind] at hr
    | ok fs =>
        rw [hd] at hr
        simp [Bind.bind, Except.bind, Pure.pure, Except.pure] at hr
        subst hr
        exact key fs
  · intro project2 config r hr
    simp only [run_test_core] at hr
    cases hd : run_detectors project2 (resolve_detectors config.toScanConfig.detectors) with
    | error e =>
        rw [hd] at hr
        simp [Bind.bind, Except.bind] at hr
    | ok fs =>
        rw [hd] at hr
        simp [Bind.bind, Except.bind, Pure.pure, Except.pure] at hr
        subst hr
        exact key _

/-- Witness for C1 at a concrete report (one `moderate` finding). -/
theorem c1_summary_findings_histogram_witness :
    dget ((ReportBuilder.build true "2026-01-01T00:00:00Z" sampleProject
        [moderateFinding] "scan" [] [] []).summary.findings) "unknown" =
      some ([moderateFinding].countP fun x =>
        normalize_severity x.severity == "unknown") :=
  (c1_summary_findings_histogram true "2026-01-01T00:00:00Z" sampleProject
    [moderateFinding] "scan" [] [] []).1 "unknown" (by decide)

/-- C8 (counterexample): the canonical severity mapper sends `moderate` to
`unknown`, not to `medium` as the claim states; a `moderate` finding is
counted and serialized as `unknown` when the report is built. -/
theorem c8_moderate_counterexample :
    normalize_severity "moderate" = "unknown" ∧
    normalize_severity "moderate" ≠ "medium" ∧
    (RadarFinding.to_dict moderateFinding).severity = "unknown" ∧
    dget (severity_totals [moderateFinding]) "medium" = some 0 ∧
    dget (severity_totals [moderateFinding]) "unknown" = some 1 := by
  refine ⟨rfl, by decide, rfl, by decide, by decide⟩

/-- C8 (amended): the canonical mapper `normalize_severity`, applied at
report build and serialization time, fixes the five named levels and
collapses every other input — including `moderate` and the empty string —
to `unknown`; the `moderate` → `medium` aliasing is performed separately by
`VulnerabilityDetector.severity_map` when the detector creates the finding,
not by the canonical mapper. -/
theorem c8_canonical_severity_mapper :
    (∀ s, s ∈ ["critical", "high", "medium", "low", "info"] →
      normalize_severity s = s) ∧
    normalize_severity "" = "unknown" ∧
    normalize_severity "moderate" = "unknown" ∧
    (∀ s, py_lower (py_strip s) ∉ ["critical", "high", "medium", "low", "info"] →
      normalize_severity s = "unknown") ∧
    (∀ s, normalize_severity s ∈
      ["critical", "high", "medium", "low", "info", "unknown"]) ∧
    dget severity_map "moderate" = some "medium" := by
  refine ⟨?_, rfl, rfl, ?_, normalize_severity_mem, rfl⟩
  · intro s hs
    fin_cases hs <;> rfl
  · intro s hs
    by_cases h0 : s = ""
    · subst h0; rfl
    · unfold normalize_severity
      simp only [if_neg h0]
      rw [if_neg]
      intro hc
      exact hs (by simpa using hc)

/-- Witness for C8 (amended) at concrete severities. -/
theorem c8_canonical_severity_mapper_witness :
    normalize_severity "high" = "high" ∧
    normalize_severity "MODERATE" = "unknown" :=
  ⟨c8_canonical_severity_mapper.1 "high" (by decide),
   c8_canonical_severity_mapper.2.2.2.1 "MODERATE" (by decide)⟩

/-- C2 (counterexample): running the same detector twice leaves two findings
with the identical identifier `TOOL-NOVERSION::search` in the sealed report —
nothing collapses duplicates on identifier. -/
theorem c2_duplicate_identifiers_counterexample :
    scan_finding_ids (run_scan_core "2026-01-01T00:00:00Z" sampleProject
        dupDetectorConfig)
      = ["TOOL-NOVERSION::search", "TOOL-NOVERSION::search"] ∧
    ¬ (scan_finding_ids (run_scan_core "2026-01-01T00:00:00Z" sampleProject
        dupDetectorConfig)).Nodup := by
  constructor
  · rfl
  · decide

/-- C2 (amended): the report seals exactly the concatenated detector outputs:
`ReportBuilder.build` stores the findings list as given and `run_detectors`
concatenates detector outputs in order, so identifiers are pairwise distinct
only when the concatenation already is — no last-write-wins merge happens. -/
theorem c2_no_deduplication :
    (∀ (snap : Bool) (now : String) (project : ParsedProject)
       (findings : List RadarFinding) (mode : String) (trace_ids : List String)
       (scenario_results : List ScenarioResult) (metadata : Meta),
       (ReportBuilder.build snap now project findings mode trace_ids
         scenario_results metadata).findings = findings) ∧
    (∀ (project : ParsedProject) (d1 d2 : Detector)
       (l1 l2 : List RadarFinding),
       d1.run project = .ok l1 → d2.run project = .ok l2 →
       run_detectors project [d1, d2] = .ok (l1 ++ l2)) := by
  constructor
  · intro snap now project findings mode trace_ids scenario_results metadata
    rfl
  · intro project d1 d2 l1 l2 h1 h2
    simp [run_detectors, List.foldlM, h1, h2, Bind.bind, Except.bind,
      Pure.pure, Except.pure]

/-- Witness for C2 (amended) at concrete inputs. -/
theorem c2_no_deduplication_witness :
    (ReportBuilder.build true "2026-01-01T00:00:00Z" sampleProject [] "scan"
      [] [] []).findings = ([] : List RadarFinding) ∧
    run_detectors sampleProject [toolInventoryDetector, toolInventoryDetector]
      = .ok (tool_inventory_findings sampleProject ++
             tool_inventory_findings sampleProject) :=
  ⟨c2_no_deduplication.1 true "2026-01-01T00:00:00Z" sampleProject [] "scan"
      [] [] [],
   c2_no_deduplication.2 sampleProject toolInventoryDetector
      toolInventoryDetector _ _ rfl rfl⟩

theorem foldl_run_error (p : ParsedProject) :
    ∀ (ds : List Detector) (acc : List RadarFinding) (d : Detector) (e : String),
      d ∈ ds → d.run p = .error e →
      ∃ msg, List.foldlM (fun findings detector => do
          let fs ← detector.run p
          pure (findings ++ fs)) acc ds = Except.error msg := by
  intro ds
  induction ds with
  | nil => intro acc d e hmem _; exact absurd hmem (List.not_mem_nil d)
  | cons hd tl ih =>
      intro acc d e hmem hrun
      rw [List.foldlM_cons]
      cases hh : hd.run p with
      | error msg =>
          exact ⟨msg, by simp [Bind.bind, Except.bind, hh]⟩
      | ok fs =>
          rcases List.mem_cons.mp hmem with rfl | htl
          · rw [hh] at hrun; cases hrun
          · obtain ⟨msg, hm⟩ := ih (acc ++ fs) d e htl hrun
            refine ⟨msg, ?_⟩
            simp only [Bind.bind, Except.bind, hh, Pure.pure, Except.pure]
            simpa [Bind.bind, Except.bind, Pure.pure, Except.pure] using hm

/-- C3 (counterexample): a raising detector is not converted into a
`DETECTOR-ERROR::boom` finding — the exception propagates, the remaining
detectors never contribute, and `run_scan` produces no report at all. -/
theorem c3_detector_exception_counterexample :
    run_detectors sampleProject
        [toolInventoryDetector, brokenDetector, mcpDetector] = .error "boom" ∧
    run_scan_core "2026-01-01T00:00:00Z" sampleProject brokenConfig
      = .error "boom" := by
  constructor <;> rfl

/-- C3 (amended): when a detector's `run` raises, the exception propagates out
of `run_detectors` and hence out of `run_scan`: no `DETECTOR-ERROR::<name>`
finding is synthesized and no report (and no `metadata.detectors` list) is
produced for that run. -/
theorem c3_detector_errors_propagate :
    (∀ (project : ParsedProject) (ds : List Detector) (d : Detector)
       (e : String),
       d ∈ ds → d.run project = .error e →
       ∃ msg, run_detectors project ds = .error msg) ∧
    (∀ (now : String) (project : ParsedProject) (config : ScanConfig)
       (e : String),
       run_detectors project (resolve_detectors config.detectors) = .error e →
       run_scan_core now project config = .error e) := by
  constructor
  · intro project ds d e hmem hrun
    simpa [run_detectors] using foldl_run_error project ds [] d e hmem hrun
  · intro now project config e h
    simp only [run_scan_core]
    rw [h]
    simp [Bind.bind, Except.bind]

/-- Witness for C3 (amended) at a concrete raising detector. -/
theorem c3_detector_errors_propagate_witness :
    (∃ msg, run_detectors sampleProject [brokenDetector] = Except.error msg) ∧
    run_scan_core "2026-01-01T00:00:00Z" sampleProject brokenConfig
      = .error "boom" :=
  ⟨c3_detector_errors_propagate.1 sampleProject [brokenDetector]
      brokenDetector "boom" (List.mem_singleton.mpr rfl) rfl,
   c3_detector_errors_propagate.2 "2026-01-01T00:00:00Z" sampleProject
      brokenConfig "boom" rfl⟩

theorem scenario_round_trip (s : ScenarioResult) :
    scenario_from_dict (ScenarioResult.to_dict s) = s := by
  cases s; rfl

theorem parsed_project_round_trip (p : ParsedProject) :
    parsed_project_from_dict (ParsedProject.to_dict p) = p := by
  cases p with
  | mk root pn agents tools servers deps md =>
      simp [parsed_project_from_dict, ParsedProject.to_dict,
        AgentComponent.to_dict, Tool.to_dict, MCPServer.to_dict,
        Dependency.to_dict, List.map_map, Function.comp_def]

/-- C5: serialization round-trips — `from_dict (to_dict R)` differs from `R`
only in that every finding severity has been re-normalized through the
canonical mapper; all other report, finding, scenario-result and
parsed-project fields are unchanged. -/
theorem c5_round_trip (r : RadarReport) :
    RadarReport.from_dict (RadarReport.to_dict r) = normalize_report r := by
  cases r with
  | mk pn mode gen findings pp summary tids srs md =>
      simp [RadarReport.to_dict, RadarReport.from_dict, normalize_report,
        finding_from_dict, RadarFinding.to_dict, List.map_map,
        Function.comp_def, scenario_round_trip, parsed_project_round_trip]

theorem test_runner_loop_spec (expectations notes : List (String × String)) :
    ∀ (names : List String),
      (test_runner_loop expectations notes names).2 = names.map (fun n =>
        { name := n,
          status := spec_status (py_lower ((dget expectations n).getD "pass")),
          details := dget notes n }) ∧
      (test_runner_loop expectations notes names).1 = names.filterMap (fun n =>
        spec_finding n (py_lower ((dget expectations n).getD "pass"))) := by
  intro names
  induction names with
  | nil => exact ⟨rfl, rfl⟩
  | cons n rest ih =>
      obtain ⟨ih2, ih1⟩ := ih
      by_cases hf : (py_lower ((dget expectations n).getD "pass") = "fail" ∨
          py_lower ((dget expectations n).getD "pass") = "failed")
      · constructor <;>
          simp [test_runner_loop, spec_status, spec_finding, if_pos hf,
            ih1, ih2]
      · by_cases hw : (py_lower ((dget expectations n).getD "pass") = "warn" ∨
            py_lower ((dget expectations n).getD "pass") = "warning")
        · constructor <;>
            simp [test_runner_loop, spec_status, spec_finding, if_neg hf,
              if_pos hw, ih1, ih2]
        · constructor <;>
            simp [test_runner_loop, spec_status, spec_finding, if_neg hf,
              if_neg hw, ih1, ih2]

/-- C7: for every requested scenario, the runner emits, in scenario order, a
`failed` result plus a `SCENARIO-FAIL::<name>` finding (severity `high`,
`LLM01`, `Agentic-Adversarial`) when the lowered expectation is
`fail`/`failed`; a `warning` result plus a `SCENARIO-WARN::<name>` finding
(severity `medium`, `LLM03`) when it is `warn`/`warning`; and a `passed`
result with no finding otherwise (including a missing expectation, which
defaults to `pass`); and `run_test` records exactly the names of the failed
scenarios in `metadata.scenario_failures`. -/
theorem c7_scenario_runner :
    (∀ (project : ParsedProject) (names : List String),
      (test_runner_run project names).2 = names.map (fun n =>
        { name := n,
          status := spec_status (py_lower ((dget (meta_smap project.metadata
            "test_expectations") n).getD "pass")),
          details := dget (meta_smap project.metadata "test_notes") n }) ∧
      (test_runner_run project names).1 = names.filterMap (fun n =>
        spec_finding n (py_lower ((dget (meta_smap project.metadata
          "test_expectations") n).getD "pass")))) ∧
    (∀ n, (scenario_fail_finding n).identifier = "SCENARIO-FAIL::" ++ n ∧
       (scenario_fail_finding n).severity = "high" ∧
       (scenario_fail_finding n).owasp_llm = ["LLM01"] ∧
       (scenario_fail_finding n).owasp_agentic = ["Agentic-Adversarial"] ∧
       (scenario_warn_finding n).identifier = "SCENARIO-WARN::" ++ n ∧
       (scenario_warn_finding n).severity = "medium" ∧
       (scenario_warn_finding n).owasp_llm = ["LLM03"]) ∧
    (∀ (now : String) (project : ParsedProject) (config : TestConfig)
       (r : RadarReport),
       run_test_core now project config = .ok r →
       dget r.metadata "scenario_failures" =
         some (.strs ((r.scenario_results.filter
           (fun res => res.status == "failed")).map ScenarioResult.name))) := by
  refine ⟨?_, ?_, ?_⟩
  · intro project names
    exact test_runner_loop_spec _ _ names
  · intro n
    exact ⟨rfl, rfl, rfl, rfl, rfl, rfl, rfl⟩
  · intro now project config r hr
    simp only [run_test_core] at hr
    cases hd : run_detectors project
        (resolve_detectors config.toScanConfig.detectors) with
    | error e =>
        rw [hd] at hr
        simp [Bind.bind, Except.bind] at hr
    | ok fs =>
        rw [hd] at hr
        simp [Bind.bind, Except.bind, Pure.pure, Except.pure] at hr
        subst hr
        exact dget_dset_self _ _ _

/-- Witness for C7 at a concrete project and scenario list. -/
theorem c7_scenario_runner_witness :
    (test_runner_run
      { root := ".", project_name := "p",
        metadata := [("test_expectations",
          MVal.smap [("prompt-injection", "fail"), ("pii-leakage", "pass")])] }
      ["prompt-injection", "pii-leakage"]).2 =
      [{ name := "prompt-injection", status := "failed", details := none },
       { name := "pii-leakage", status := "passed", details := none }] := by
  rw [(c7_scenario_runner.1
    { root := ".", project_name := "p",
      metadata := [("test_expectations",
        MVal.smap [("prompt-injection", "fail"), ("pii-leakage", "pass")])] }
    ["prompt-injection", "pii-leakage"]).1]
  decide

/-- C9 (counterexample): when the logs path is neither an existing file nor a
directory, `EvidencePackBuilder.build` raises only after
`zipfile.ZipFile(output_path, "w")` has created the archive and the findings
entries were written — a partial zip holding `findings/report.json` is left
at the output path, which beforehand held no file at all. -/
theorem c9_partial_zip_counterexample :
    evidence_build evFS ["report.json"] (some "missing-logs") none
      = (.error (.logsMissing "missing-logs"), some ["findings/report.json"]) ∧
    (some ["findings/report.json"] : Option (List String)) ≠ none := by
  exact ⟨rfl, by simp⟩

/-- C9 (amended): the validation failures (empty findings list, missing
findings file) are raised before the zip is opened and leave the output path
unchanged; but an invalid `logs_path` is detected only inside the `with`
block, leaving a partial zip containing exactly the findings entries at the
output path. -/
theorem c9_packaging_errors :
    ∀ (fs : EvidenceFS) (findings_paths : List String)
      (logs_path : Option String) (before : Option (List String)),
      (findings_paths = [] →
        evidence_build fs findings_paths logs_path before =
          (.error .noFindings, before)) ∧
      (∀ p, first_missing fs findings_paths = some p →
        evidence_build fs findings_paths logs_path before =
          (.error (.findingsMissing p), before)) ∧
      (∀ p, (evidence_build fs findings_paths logs_path before).1 =
          .error (.logsMissing p) →
        (evidence_build fs findings_paths logs_path before).2 =
          some (findings_arcnames findings_paths)) := by
  intro fs findings_paths logs_path before
  refine ⟨?_, ?_, ?_⟩
  · intro h
    simp [evidence_build, h]
  · intro p hp
    by_cases h0 : findings_paths = []
    · subst h0; simp [first_missing] at hp
    · simp [evidence_build, h0, hp]
  · intro p hp
    by_cases h0 : findings_paths = []
    · simp [evidence_build, h0] at hp
    · cases hm : first_missing fs findings_paths with
      | some q => simp [evidence_build, h0, hm] at hp
      | none =>
          cases hl : logs_path with
          | none => simp [evidence_build, h0, hm, hl] at hp
          | some lp =>
              cases hd : dget fs.dirs lp with
              | some rel => simp [evidence_build, h0, hm, hl, hd] at hp
              | none =>
                  by_cases hf : fs.is_file lp
                  · simp [evidence_build, h0, hm, hl, hd, hf] at hp
                  · simp [evidence_build, h0, hm, hl, hd, hf]

/-- Witness for C9 (amended) at concrete inputs. -/
theorem c9_packaging_errors_witness :
    evidence_build evFS [] none none = (.error .noFindings, none) ∧
    (evidence_build evFS ["report.json"] (some "missing-logs") none).2 =
      some (findings_arcnames ["report.json"]) :=
  ⟨(c9_packaging_errors evFS [] none none).1 rfl,
   (c9_packaging_errors evFS ["report.json"] (some "missing-logs") none).2.2
     "missing-logs" rfl⟩

theorem mem_sorted_strings (l : List String) (c : String) :
    c ∈ sorted_strings l ↔ c ∈ l := by
  unfold sorted_strings
  rw [(List.perm_insertionSort _ _).mem_iff, List.mem_dedup]

theorem sorted_strings_sorted (l : List String) :
    (sorted_strings l).Sorted (· ≤ ·) :=
  List.sorted_insertionSort _ _

theorem default_rules_llm_nonempty : ∀ r ∈ DEFAULT_RULES, r.llm_codes ≠ [] := by
  decide

theorem default_rules_agentic_nonempty :
    ∀ r ∈ DEFAULT_RULES, r.agentic_codes ≠ [] := by
  decide

theorem applied_llm_pool_mem (f : VulnerabilityFinding) (c : String) :
    c ∈ applied_llm_pool f ↔
      ((∃ r ∈ DEFAULT_RULES, rule_matches r f = true ∧ c ∈ r.llm_codes) ∨
       ((∀ r ∈ DEFAULT_RULES, rule_matches r f = false) ∧ c = "LLM05")) := by
  unfold applied_llm_pool
  by_cases h : ((DEFAULT_RULES.filter
      (fun rule => rule_matches rule f)).flatMap MappingRule.llm_codes).isEmpty
  · rw [if_pos h]
    have hempty : (DEFAULT_RULES.filter
        (fun rule => rule_matches rule f)).flatMap MappingRule.llm_codes = [] :=
      List.isEmpty_iff.mp h
    have hno : ∀ r ∈ DEFAULT_RULES, rule_matches r f = false := by
      intro r hr
      by_contra hmatch
      have hm : rule_matches r f = true := by
        simpa using hmatch
      obtain ⟨x, hx⟩ :=
        List.exists_mem_of_ne_nil _ (default_rules_llm_nonempty r hr)
      have : x ∈ (DEFAULT_RULES.filter
          (fun rule => rule_matches rule f)).flatMap MappingRule.llm_codes :=
        List.mem_flatMap.mpr ⟨r, List.mem_filter.mpr ⟨hr, hm⟩, hx⟩
      rw [hempty] at this
      exact absurd this (List.not_mem_nil x)
    constructor
    · intro hcm
      exact Or.inr ⟨hno, by simpa using hcm⟩
    · rintro (⟨r, hr, hm, _⟩ | ⟨_, rfl⟩)
      · rw [hno r hr] at hm; cases hm
      · simp
  · rw [if_neg h]
    constructor
    · intro hcm
      obtain ⟨r, hrf, hcr⟩ := List.mem_flatMap.mp hcm
      obtain ⟨hr, hm⟩ := List.mem_filter.mp hrf
      exact Or.inl ⟨r, hr, hm, hcr⟩
    · rintro (⟨r, hr, hm, hcr⟩ | ⟨hno, rfl⟩)
      · exact List.mem_flatMap.mpr ⟨r, List.mem_filter.mpr ⟨hr, hm⟩, hcr⟩
      · exfalso
        apply h
        have hfil : DEFAULT_RULES.filter (fun rule => rule_matches rule f) = [] :=
          List.filter_eq_nil_iff.mpr (fun r hr => by simp [hno r hr])
        simp [hfil]

theorem applied_agentic_pool_mem (f : VulnerabilityFinding) (c : String) :
    c ∈ applied_agentic_pool f ↔
      ((∃ r ∈ DEFAULT_RULES, rule_matches r f = true ∧ c ∈ r.agentic_codes) ∨
       ((∀ r ∈ DEFAULT_RULES, rule_matches r f = false) ∧ c = "AA06")) := by
  unfold applied_agentic_pool
  by_cases h : ((DEFAULT_RULES.filter
      (fun rule => rule_matches rule f)).flatMap MappingRule.agentic_codes).isEmpty
  · rw [if_pos h]
    have hempty : (DEFAULT_RULES.filter
        (fun rule => rule_matches rule f)).flatMap MappingRule.agentic_codes = [] :=
      List.isEmpty_iff.mp h
    have hno : ∀ r ∈ DEFAULT_RULES, rule_matches r f = false := by
      intro r hr
      by_contra hmatch
      have hm : rule_matches r f = true := by
        simpa using hmatch
      obtain ⟨x, hx⟩ :=
        List.exists_mem_of_ne_nil _ (default_rules_agentic_nonempty r hr)
      have : x ∈ (DEFAULT_RULES.filter
          (fun rule => rule_matches rule f)).flatMap MappingRule.agentic_codes :=
        List.mem_flatMap.mpr ⟨r, List.mem_filter.mpr ⟨hr, hm⟩, hx⟩
      rw [hempty] at this
      exact absurd this (List.not_mem_nil x)
    constructor
    · intro hcm
      exact Or.inr ⟨hno, by simpa using hcm⟩
    · rintro (⟨r, hr, hm, _⟩ | ⟨_, rfl⟩)
      · rw [hno r hr] at hm; cases hm
      · simp
  · rw [if_neg h]
    constructor
    · intro hcm
      obtain ⟨r, hrf, hcr⟩ := List.mem_flatMap.mp hcm
      obtain ⟨hr, hm⟩ := List.mem_filter.mp hrf
      exact Or.inl ⟨r, hr, hm, hcr⟩
    · rintro (⟨r, hr, hm, hcr⟩ | ⟨hno, rfl⟩)
      · exact List.mem_flatMap.mpr ⟨r, List.mem_filter.mpr ⟨hr, hm⟩, hcr⟩
      · exfalso
        apply h
        have hfil : DEFAULT_RULES.filter (fun rule => rule_matches rule f) = [] :=
          List.filter_eq_nil_iff.mpr (fun r hr => by simp [hno r hr])
        simp [hfil]

/-- C4: `OWASPMapper.apply` assigns exactly the union of the codes of the
matching default rules, sorted ascending, falling back to `LLM05`/`AA06` when
no rule matches; in particular the OSV finding whose summary is "Remote code
execution in libfoo" is assigned the RCE rule's `LLM07` and `AA02` (stored
with their titles), not the defaults. -/
theorem c4_owasp_mapper_rules :
    (∀ (f : VulnerabilityFinding) (c : String),
      c ∈ applied_llm_codes f ↔
        ((∃ r ∈ DEFAULT_RULES, rule_matches r f = true ∧ c ∈ r.llm_codes) ∨
         ((∀ r ∈ DEFAULT_RULES, rule_matches r f = false) ∧ c = "LLM05"))) ∧
    (∀ (f : VulnerabilityFinding) (c : String),
      c ∈ applied_agentic_codes f ↔
        ((∃ r ∈ DEFAULT_RULES, rule_matches r f = true ∧ c ∈ r.agentic_codes) ∨
         ((∀ r ∈ DEFAULT_RULES, rule_matches r f = false) ∧ c = "AA06"))) ∧
    (∀ f, (applied_llm_codes f).Sorted (· ≤ ·) ∧
          (applied_agentic_codes f).Sorted (· ≤ ·)) ∧
    applied_llm_codes plainVuln = ["LLM05"] ∧
    applied_agentic_codes plainVuln = ["AA06"] ∧
    ((from_osv osvRcePayload).map
        (fun f => (f.owasp_llm_categories, f.owasp_agentic_categories)) =
      [(["LLM07 - Insecure Plugin Design"],
        ["AA02 - Tool Misuse & Escalation"])]) := by
  refine ⟨?_, ?_, ?_, rfl, rfl, rfl⟩
  · intro f c
    rw [applied_llm_codes, mem_sorted_strings]
    exact applied_llm_pool_mem f c
  · intro f c
    rw [applied_agentic_codes, mem_sorted_strings]
    exact applied_agentic_pool_mem f c
  · intro f
    exact ⟨sorted_strings_sorted _, sorted_strings_sorted _⟩

/-- C6 (counterexample): the taxonomy mapper does not store bare code
strings — it stores the code concatenated with its human title at mapping
time, so the stored value fails the claim's `^LLM(0[1-9]|10)$` pattern. -/
theorem c6_formatted_category_counterexample :
    (owasp_apply plainVuln).owasp_llm_categories =
      ["LLM05 - Supply Chain Vulnerabilities"] ∧
    is_llm_code "LLM05 - Supply Chain Vulnerabilities" = false ∧
    (owasp_apply plainVuln).owasp_agentic_categories =
      ["AA06 - Supply Chain & Dependency Risk"] := by
  exact ⟨rfl, rfl, rfl⟩

theorem rule_codes_valid :
    (∀ r ∈ DEFAULT_RULES, ∀ c ∈ r.llm_codes, is_llm_code c = true) ∧
    (∀ r ∈ DEFAULT_RULES, ∀ c ∈ r.agentic_codes, is_aa_code c = true) := by
  decide

/-- C6 (amended): the built-in detectors and the scenario runner store bare
upper-cased LLM codes together with free Agentic labels on their findings;
the taxonomy mapper instead stores, for each assigned code, the string
`<code> - <title>` (code plus human title), where the code component is a
valid `LLM01..LLM10` / `AA01..AA10` code — so titles are attached at mapping
time, not only at render time. -/
theorem c6_stored_code_formats :
    (∀ (p : ParsedProject) (f : RadarFinding), f ∈ tool_inventory_findings p →
      (f.owasp_llm = ["LLM02"] ∧ f.owasp_agentic = ["Agentic-Tooling"]) ∨
      (f.owasp_llm = ["LLM06"] ∧ f.owasp_agentic = ["Agentic-External-Tool"])) ∧
    (∀ (p : ParsedProject) (f : RadarFinding), f ∈ mcp_detector_findings p →
      (f.owasp_llm = ["LLM08"] ∧ f.owasp_agentic = ["Agentic-MCP-LeastPrivilege"]) ∨
      (f.owasp_llm = ["LLM04"] ∧ f.owasp_agentic = ["Agentic-MCP-Hardening"])) ∧
    (∀ (p : ParsedProject) (f : RadarFinding),
      f ∈ vulnerability_detector_findings p →
      f.owasp_llm = ["LLM06"] ∧ f.owasp_agentic = ["Agentic-SupplyChain"]) ∧
    (∀ n, (scenario_fail_finding n).owasp_llm = ["LLM01"] ∧
       (scenario_warn_finding n).owasp_llm = ["LLM03"]) ∧
    (∀ c, c ∈ ["LLM01", "LLM02", "LLM03", "LLM04", "LLM06", "LLM08"] →
      is_llm_code c = true) ∧
    (∀ (f : VulnerabilityFinding) (c : String),
      c ∈ (owasp_apply f).owasp_llm_categories →
      ∃ code, is_llm_code code = true ∧
        c = format_category code LLM_CATEGORY_TITLES) ∧
    (∀ (f : VulnerabilityFinding) (c : String),
      c ∈ (owasp_apply f).owasp_agentic_categories →
      ∃ code, is_aa_code code = true ∧
        c = format_category code AGENTIC_CATEGORY_TITLES) := by
  refine ⟨?_, ?_, ?_, ?_, ?_, ?_, ?_⟩
  · intro p f h
    obtain ⟨t, ht, hf⟩ := List.mem_flatMap.mp h
    unfold tool_findings_for at hf
    rcases List.mem_append.mp hf with h1 | h1 <;>
      split_ifs at h1 <;> simp at h1 <;> subst h1 <;> simp
  · intro p f h
    obtain ⟨srv, hs, hf⟩ := List.mem_flatMap.mp h
    unfold mcp_findings_for at hf
    rcases List.mem_append.mp hf with h1 | h1 <;>
      split_ifs at h1 <;> simp at h1 <;> subst h1 <;> simp
  · intro p f h
    obtain ⟨dep, hd, hf⟩ := List.mem_flatMap.mp h
    obtain ⟨v, hv, rfl⟩ := List.mem_map.mp hf
    exact ⟨rfl, rfl⟩
  · intro n
    exact ⟨rfl, rfl⟩
  · intro c hc
    fin_cases hc <;> rfl
  · intro f c hc
    obtain ⟨code, hcode, rfl⟩ := List.mem_map.mp hc
    refine ⟨code, ?_, rfl⟩
    rw [applied_llm_codes, mem_sorted_strings] at hcode
    rcases (applied_llm_pool_mem f code).mp hcode with ⟨r, hr, _, hcr⟩ | ⟨_, rfl⟩
    · exact rule_codes_valid.1 r hr code hcr
    · rfl
  · intro f c hc
    obtain ⟨code, hcode, rfl⟩ := List.mem_map.mp hc
    refine ⟨code, ?_, rfl⟩
    rw [applied_agentic_codes, mem_sorted_strings] at hcode
    rcases (applied_agentic_pool_mem f code).mp hcode with ⟨r, hr, _, hcr⟩ | ⟨_, rfl⟩
    · exact rule_codes_valid.2 r hr code hcr
    · rfl

/-- Witness for C6 (amended) at concrete findings. -/
theorem c6_stored_code_formats_witness :
    ((tool_inventory_findings sampleProject).head?.getD
        (scenario_fail_finding "x")).owasp_llm = ["LLM02"] ∧
    (∃ code, is_llm_code code = true ∧
      "LLM05 - Supply Chain Vulnerabilities" =
        format_category code LLM_CATEGORY_TITLES) := by
  constructor
  · have h := c6_stored_code_formats.1 sampleProject
      ((tool_inventory_findings sampleProject).head?.getD
        (scenario_fail_finding "x")) (by decide)
    rcases h with ⟨h1, _⟩ | ⟨h1, _⟩
    · exact h1
    · exact absurd h1 (by decide)
  · exact c6_stored_code_formats.2.2.2.2.2.1 plainVuln
      "LLM05 - Supply Chain Vulnerabilities" (by decide)

/-- C10: in `from_osv`, Python parses
`vuln.get("id") or aliases[0] if aliases else package_name` as
`(id or aliases[0]) if aliases else package_name`, so a record with an empty
aliases list yields findings whose `vulnerability_id` is the package name —
even when the record carries a non-empty `id`; the id (with first-alias
fallback) is consulted only when the aliases list is non-empty. -/
theorem c10_vuln_id_precedence :
    (∀ (pkg : String) (v : OsvVuln), v.aliases = [] →
      osv_vuln_id pkg v = pkg) ∧
    (∀ (pkg : String) (v : OsvVuln) (a : String) (rest : List String),
      v.aliases = a :: rest → osv_vuln_id pkg v = or_str v.id a) ∧
    (∀ (payload : OsvPayload) (f : VulnerabilityFinding),
      f ∈ from_osv payload →
      ∃ res ∈ payload.results, ∃ p ∈ res.packages, ∃ v ∈ p.vulnerabilities,
        f.vulnerability_id =
          osv_vuln_id (or_str (p.package.getD {}).name "unknown") v) ∧
    osvRceVuln.id = some "CVE-2024-0001" ∧
    ((from_osv osvRcePayload).map (fun f => f.vulnerability_id) = ["libfoo"]) := by
  refine ⟨?_, ?_, ?_, rfl, rfl⟩
  · intro pkg v h
    simp [osv_vuln_id, h]
  · intro pkg v a rest h
    simp [osv_vuln_id, h]
  · intro payload f h
    simp only [from_osv] at h
    obtain ⟨res, hres, h⟩ := List.mem_flatMap.mp h
    obtain ⟨p, hp, h⟩ := List.mem_flatMap.mp h
    obtain ⟨v, hv, h⟩ := List.mem_flatMap.mp h
    obtain ⟨ver, hver, rfl⟩ := List.mem_map.mp h
    exact ⟨res, hres, p, hp, v, hv, rfl⟩

/-- Witness for C10 at concrete records. -/
theorem c10_vuln_id_precedence_witness :
    osv_vuln_id "libfoo" osvRceVuln = "libfoo" ∧
    osv_vuln_id "libfoo"
        ({ id := some "CVE-2024-0001", aliases := ["GHSA-aaaa"] } : OsvVuln) =
      or_str (some "CVE-2024-0001") "GHSA-aaaa" :=
  ⟨c10_vuln_id_precedence.1 "libfoo" osvRceVuln rfl,
   c10_vuln_id_precedence.2.1 "libfoo"
     { id := some "CVE-2024-0001", aliases := ["GHSA-aaaa"] }
     "GHSA-aaaa" [] rfl⟩

end AgenticRadar
